import Mathlib

/-!
Verification of the "Save the Date" single-page application
(src/assets/js/main.js, second module copy at lines 1959-4603, and
src/assets/js/countdown-demo.js).

Each section embeds one module of the source as executable Lean
definitions and proves the spec's claims about it:
  * ICS calendar export (`escapeIcsText`, `createCalendarIcsContent`)
  * celebration video handler attachment (`attachCelebrationVideoHandlers`)
  * celebration audio playback / permission UI (`ensureCelebrationAudioPlayback`)
  * video/audio media sync handlers (`setupCelebrationMediaSync` closures)
  * countdown, border-cell reveal and experience start
    (`revealNextBorderCell`, `handleCountdownTick`, `startCountdownFlow`,
    `startExperience`)
-/

namespace SaveTheDate

/-! ## ICS calendar export (main.js lines 3562-3617) -/

/-- Embeds one call of `value.replace(/x/g, y)` for a single-character
pattern `x`: every occurrence of the character `p` is replaced by the
character list `r`, all other characters pass through unchanged. -/
def replaceChar (s : List Char) (p : Char) (r : List Char) : List Char :=
  s.flatMap (fun c => if c = p then r else [c])

/-- Embeds `escapeIcsText` (main.js lines 3577-3582): four sequential global
single-character replacements, backslash first, then semicolon, comma and
newline, each replaced by its backslash-escaped form. -/
def escapeIcsText (value : List Char) : List Char :=
  replaceChar
    (replaceChar
      (replaceChar
        (replaceChar value '\\' ['\\', '\\'])
        ';' ['\\', ';'])
      ',' ['\\', ','])
    '\n' ['\\', 'n']

/-- Specification-level per-character ICS escaping: each of backslash,
semicolon, comma and newline is rendered as a backslash-escaped pair, every
other character passes through unchanged. -/
def escapeIcsCharSpec (c : Char) : List Char :=
  if c = '\\' then ['\\', '\\']
  else if c = ';' then ['\\', ';']
  else if c = ',' then ['\\', ',']
  else if c = '\n' then ['\\', 'n']
  else [c]

/-- String-level wrapper of `escapeIcsText`. -/
def escapeIcsString (s : String) : String :=
  String.mk (escapeIcsText s.data)

/-- Embeds the `CALENDAR_EVENT` configuration record
(main.js lines 2061-2070). -/
structure CalendarEvent where
  title : String
  location : String
  website : String
  description : String
  startDate : String
  endDateExclusive : String
  uid : String
deriving Repr, DecidableEq

/-- The fixed wedding event configured in main.js lines 2061-2070. -/
def CALENDAR_EVENT : CalendarEvent :=
  ⟨"Wedding Weekend: Lorraine & Christopher",
   "Chalet View Lodge, 72056 CA-70, Blairsden-Graeagle, CA 96103",
   "https://becomingcummings.love",
   "Join us for our wedding weekend celebration. Visit https://becomingcummings.love for details.",
   "20260911",
   "20260914",
   "wedding-weekend-20260911@becomingcummings.love"⟩

/-- Embeds the `lines` array of `createCalendarIcsContent`
(main.js lines 3596-3614); the `DTSTAMP` value comes from `new Date()` and
is passed in as a parameter, and the event record is passed explicitly
(the source reads the module constant `CALENDAR_EVENT`). -/
def calendarIcsLines (dtstamp : String) (e : CalendarEvent) : List String :=
  ["BEGIN:VCALENDAR",
   "VERSION:2.0",
   "PRODID:-//Becoming Cummings//Save The Date//EN",
   "CALSCALE:GREGORIAN",
   "METHOD:PUBLISH",
   "BEGIN:VEVENT",
   "DTSTAMP:" ++ dtstamp,
   "DTSTART;VALUE=DATE:" ++ e.startDate,
   "DTEND;VALUE=DATE:" ++ e.endDateExclusive,
   "SUMMARY:" ++ escapeIcsString e.title,
   "DESCRIPTION:" ++ escapeIcsString e.description,
   "LOCATION:" ++ escapeIcsString e.location,
   "UID:" ++ escapeIcsString e.uid,
   "URL:" ++ e.website,
   "END:VEVENT",
   "END:VCALENDAR"]

/-- Embeds the return value of `createCalendarIcsContent`
(main.js line 3616): the lines joined by CRLF, with a trailing CRLF. -/
def createCalendarIcsContent (dtstamp : String) (e : CalendarEvent) : String :=
  String.intercalate "\r\n" (calendarIcsLines dtstamp e) ++ "\r\n"

lemma replaceChar_nil (p : Char) (r : List Char) : replaceChar [] p r = [] := rfl

lemma replaceChar_cons (c : Char) (s : List Char) (p : Char) (r : List Char) :
    replaceChar (c :: s) p r =
      (if c = p then r else [c]) ++ replaceChar s p r := by
  simp [replaceChar, List.flatMap]

lemma replaceChar_append (s t : List Char) (p : Char) (r : List Char) :
    replaceChar (s ++ t) p r = replaceChar s p r ++ replaceChar t p r := by
  simp [replaceChar]

/-- The four sequential replacements act on the head character
independently of the tail, and on a single character they agree with the
per-character specification `escapeIcsCharSpec`. -/
lemma escapeIcsText_cons (c : Char) (cs : List Char) :
    escapeIcsText (c :: cs) = escapeIcsCharSpec c ++ escapeIcsText cs := by
  simp only [escapeIcsText, replaceChar_cons, replaceChar_append]
  by_cases h1 : c = '\\'
  · subst h1; simp [replaceChar, escapeIcsCharSpec]
  · by_cases h2 : c = ';'
    · subst h2; simp [replaceChar, escapeIcsCharSpec]
    · by_cases h3 : c = ','
      · subst h3; simp [replaceChar, escapeIcsCharSpec]
      · by_cases h4 : c = '\n'
        · subst h4; simp [replaceChar, escapeIcsCharSpec, h1]
        · simp [replaceChar, escapeIcsCharSpec, h1, h2, h3, h4]

/-- The four sequential global replacements of `escapeIcsText` equal a
single per-character escaping pass over the input. -/
lemma escapeIcsText_eq_flatMap (value : List Char) :
    escapeIcsText value = value.flatMap escapeIcsCharSpec := by
  induction value with
  | nil => rfl
  | cons c cs ih => simp [escapeIcsText_cons, ih]

/-- C2: the generated ICS text is the CRLF-join of the
`VCALENDAR`/`VEVENT` lines (with a trailing CRLF); for the fixed wedding
event those lines contain `DTSTART;VALUE=DATE:20260911` and
`DTEND;VALUE=DATE:20260914` whatever the description is; the
`DESCRIPTION` line carries exactly the escaped description; and the escape
function rewrites every backslash, semicolon, comma and newline of any
description string to its backslash-escaped form (acting per character,
leaving every other character unchanged). -/
theorem ics_content_dates_and_escaping (dtstamp desc : String) :
    let e : CalendarEvent :=
      ⟨CALENDAR_EVENT.title, CALENDAR_EVENT.location, CALENDAR_EVENT.website,
       desc, CALENDAR_EVENT.startDate, CALENDAR_EVENT.endDateExclusive,
       CALENDAR_EVENT.uid⟩
    "DTSTART;VALUE=DATE:20260911" ∈ calendarIcsLines dtstamp e
    ∧ "DTEND;VALUE=DATE:20260914" ∈ calendarIcsLines dtstamp e
    ∧ createCalendarIcsContent dtstamp e =
        String.intercalate "\r\n" (calendarIcsLines dtstamp e) ++ "\r\n"
    ∧ ("DESCRIPTION:" ++ escapeIcsString desc) ∈ calendarIcsLines dtstamp e
    ∧ escapeIcsText desc.data = desc.data.flatMap escapeIcsCharSpec := by
  refine ⟨?_, ?_, rfl, ?_, escapeIcsText_eq_flatMap desc.data⟩
  · simp [calendarIcsLines, CALENDAR_EVENT]
  · simp [calendarIcsLines, CALENDAR_EVENT]
  · simp [calendarIcsLines]

/-! ## Celebration video handler attachment (main.js lines 2097-2100,
2385-2418)

Handlers are identified by `Nat` tokens standing for distinct JS closure
identities.  `endedListeners`/`errorListeners` are the DOM listener lists
of the shared celebration video element for the two event types;
`storedEnded`/`storedError` are the module-level variables
`sharedCelebrationVideoEndedHandler` / `sharedCelebrationVideoErrorHandler`. -/

structure HandlerState where
  storedEnded : Option Nat
  storedError : Option Nat
  endedListeners : List Nat
  errorListeners : List Nat
deriving Repr, DecidableEq

/-- The state at module load: both shared handler variables are `null`
(main.js lines 2099-2100) and the freshly created video element has no
listeners. -/
def initHandlerState : HandlerState := ⟨none, none, [], []⟩

/-- Embeds `resetCelebrationVideoHandlers` (main.js lines 2385-2397): each
shared handler variable, when set, is removed from the corresponding DOM
listener list (`removeEventListener` drops one matching registration) and
nulled out. -/
def resetCelebrationVideoHandlers (s : HandlerState) : HandlerState :=
  let s1 :=
    match s.storedEnded with
    | some h => { s with endedListeners := s.endedListeners.erase h,
                         storedEnded := none }
    | none => s
  match s1.storedError with
  | some h => { s1 with errorListeners := s1.errorListeners.erase h,
                        storedError := none }
  | none => s1

/-- Embeds `attachCelebrationVideoHandlers` (main.js lines 2404-2418):
reset the previous handlers first, then register the given `onEnded` /
`onError` callbacks (each only when a function was passed, i.e. `some`)
with `addEventListener(..., { once: true })` and remember them in the
shared variables. -/
def attachCelebrationVideoHandlers (s : HandlerState)
    (onEnded onError : Option Nat) : HandlerState :=
  let s1 := resetCelebrationVideoHandlers s
  let s2 :=
    match onEnded with
    | some h => { s1 with storedEnded := some h,
                          endedListeners := s1.endedListeners ++ [h] }
    | none => s1
  match onError with
  | some h => { s2 with storedError := some h,
                        errorListeners := s2.errorListeners ++ [h] }
  | none => s2

/-- Applies a sequence of `attachCelebrationVideoHandlers` calls. -/
def runAttachSeq (ops : List (Option Nat × Option Nat))
    (s : HandlerState) : HandlerState :=
  ops.foldl (fun t op => attachCelebrationVideoHandlers t op.1 op.2) s

/-- Dispatch of one `ended` DOM event: every currently registered `ended`
listener fires once, and each was registered with `{ once: true }` so it is
removed; returns the new state and the number of callbacks that fired. -/
def fireEnded (s : HandlerState) : HandlerState × Nat :=
  ({ s with endedListeners := [] }, s.endedListeners.length)

/-- The invariant tying the DOM listener lists to the shared handler
variables: the listener list for each event type is exactly the one stored
handler (or empty). -/
def HandlerInv (s : HandlerState) : Prop :=
  s.endedListeners = s.storedEnded.toList
  ∧ s.errorListeners = s.storedError.toList

lemma handlerInv_init : HandlerInv initHandlerState := ⟨rfl, rfl⟩

lemma handlerInv_reset (s : HandlerState) (h : HandlerInv s) :
    HandlerInv (resetCelebrationVideoHandlers s)
    ∧ (resetCelebrationVideoHandlers s).endedListeners = []
    ∧ (resetCelebrationVideoHandlers s).errorListeners = [] := by
  obtain ⟨h1, h2⟩ := h
  unfold resetCelebrationVideoHandlers
  cases he : s.storedEnded <;> cases hr : s.storedError <;>
    simp_all [HandlerInv, Option.toList, List.erase]

lemma handlerInv_attach (s : HandlerState) (onEnded onError : Option Nat)
    (h : HandlerInv s) :
    HandlerInv (attachCelebrationVideoHandlers s onEnded onError) := by
  obtain ⟨hinv, hend, herr⟩ := handlerInv_reset s h
  unfold attachCelebrationVideoHandlers
  cases onEnded <;> cases onError <;>
    simp_all [HandlerInv, Option.toList]

lemma handlerInv_runAttachSeq (ops : List (Option Nat × Option Nat))
    (s : HandlerState) (h : HandlerInv s) :
    HandlerInv (runAttachSeq ops s) := by
  induction ops generalizing s with
  | nil => exact h
  | cons op rest ih =>
      exact ih _ (handlerInv_attach s op.1 op.2 h)

/-- C3: after any sequence of `attachCelebrationVideoHandlers` calls
starting from the freshly created video element, at most one `ended`
listener and at most one `error` listener are registered (each attach
removes the previously stored handlers before adding new ones), so a
single playback-completion `ended` event fires at most one callback. -/
theorem attach_handlers_at_most_one (ops : List (Option Nat × Option Nat)) :
    (runAttachSeq ops initHandlerState).endedListeners.length ≤ 1
    ∧ (runAttachSeq ops initHandlerState).errorListeners.length ≤ 1
    ∧ (fireEnded (runAttachSeq ops initHandlerState)).2 ≤ 1 := by
  obtain ⟨h1, h2⟩ := handlerInv_runAttachSeq ops initHandlerState handlerInv_init
  have hl : ∀ o : Option Nat, o.toList.length ≤ 1 := by
    intro o; cases o <;> simp [Option.toList]
  refine ⟨?_, ?_, ?_⟩
  · rw [h1]; exact hl _
  · rw [h2]; exact hl _
  · show (runAttachSeq ops initHandlerState).endedListeners.length ≤ 1
    rw [h1]; exact hl _

/-! ## Celebration audio playback and permission UI
(main.js lines 2111, 2231-2262, 2710-2776)

`blocked` is the module variable `isCelebrationAudioPlaybackBlocked`;
`uiVisible` is whether the sound-permission container carries the visible
class; `wrapperPresent` is whether `currentCelebrationVideoWrapper` is set
(it is assigned in `setupCelebrationMediaSync` when the video sits in a
`.countdown-wrapper`); `videoActive`/`videoMuted` model
`activeCelebrationVideoElement`.  The asynchronous result of
`audio.play()` is passed in as a `PlayResult` and the `then`/`catch`
continuations are run on it; the returned `Bool` records whether a play
attempt was actually resolved (the promise continuations ran). -/

structure AudioCtl where
  blocked : Bool
  uiVisible : Bool
  wrapperPresent : Bool
  audioPaused : Bool
  audioEnded : Bool
  audioMuted : Bool
  videoActive : Bool
  videoMuted : Bool
deriving Repr, DecidableEq

/-- Outcome of the `audio.play()` call: the returned promise fulfilled,
rejected (with or without a "not allowed" class of error), or no thenable
was returned at all. -/
inductive PlayResult
  | resolved
  | rejected (notAllowed : Bool)
  | noPromise
deriving Repr, DecidableEq

/-- Embeds the option object of `ensureCelebrationAudioPlayback`
(main.js lines 2710-2718). -/
structure PlaybackOptions where
  allowRetry : Bool
  initiatedByUser : Bool
  forceRetry : Bool
deriving Repr, DecidableEq

/-- Embeds `showCelebrationAudioPermissionUi` (main.js lines 2231-2247):
without a current video wrapper it returns doing nothing, otherwise the
permission container is shown. -/
def showCelebrationAudioPermissionUi (s : AudioCtl) : AudioCtl :=
  if !s.wrapperPresent then s else { s with uiVisible := true }

/-- Embeds `hideCelebrationAudioPermissionUi` (main.js lines 2249-2262):
the visible class is removed (a no-op when the container was never
created). -/
def hideCelebrationAudioPermissionUi (s : AudioCtl) : AudioCtl :=
  { s with uiVisible := false }

/-- Embeds `ensureCelebrationAudioPlayback` (main.js lines 2710-2776).
In order: the blocked-and-no-retry guard returns early; with an active
controlling video the audio mute state is set opposite to the video; if
the audio is already playing (neither paused nor ended) the blocked flag
clears and the UI hides; otherwise `audio.play()` runs and its
fulfillment clears the blocked flag and hides the UI, while rejection
sets the blocked flag and, for a "not allowed" class of error, shows the
permission UI; a missing thenable is treated like fulfillment.  The
second component is `true` exactly when a play attempt ran. -/
def ensureCelebrationAudioPlayback (opts : PlaybackOptions)
    (res : PlayResult) (s : AudioCtl) : AudioCtl × Bool :=
  if s.blocked && !opts.allowRetry && !opts.forceRetry then (s, false)
  else
    let s0 := if s.videoActive then { s with audioMuted := !s.videoMuted } else s
    if !s0.audioPaused && !s0.audioEnded then
      (hideCelebrationAudioPermissionUi { s0 with blocked := false }, false)
    else
      match res with
      | .resolved =>
          (hideCelebrationAudioPermissionUi
            { s0 with blocked := false, audioPaused := false }, true)
      | .rejected notAllowed =>
          let s1 := { s0 with blocked := true }
          (if notAllowed then showCelebrationAudioPermissionUi s1 else s1, true)
      | .noPromise =>
          (hideCelebrationAudioPermissionUi
            { s0 with blocked := false, audioPaused := false }, false)

/-- C4: with the celebration video wrapper present, a play attempt that
rejects with a not-allowed-class error sets the blocked flag and makes
the sound-permission retry UI visible; a subsequent user-initiated retry
(the permission button calls with `initiatedByUser` and `forceRetry`,
main.js lines 2219-2221) whose play attempt succeeds clears the blocked
flag and hides the permission UI; and every resolved successful play
attempt leaves the blocked flag false. -/
theorem audio_blocked_flag_and_permission_ui (s : AudioCtl)
    (opts : PlaybackOptions)
    (hw : s.wrapperPresent = true)
    (hp : s.audioPaused = true ∨ s.audioEnded = true)
    (hg : s.blocked = false ∨ opts.allowRetry = true ∨ opts.forceRetry = true) :
    ((ensureCelebrationAudioPlayback opts (.rejected true) s).1.blocked = true
      ∧ (ensureCelebrationAudioPlayback opts (.rejected true) s).1.uiVisible = true)
    ∧ (∀ t : AudioCtl, t.blocked = true → t.audioPaused = true →
        (ensureCelebrationAudioPlayback ⟨false, true, true⟩ .resolved t).1.blocked = false
        ∧ (ensureCelebrationAudioPlayback ⟨false, true, true⟩ .resolved t).1.uiVisible = false)
    ∧ (∀ (t : AudioCtl) (o : PlaybackOptions),
        (ensureCelebrationAudioPlayback o .resolved t).2 = true →
        (ensureCelebrationAudioPlayback o .resolved t).1.blocked = false) := by
  refine ⟨?_, ?_, ?_⟩
  · rcases hg with hg | hg | hg <;> rcases hp with hp | hp <;>
      cases hv : s.videoActive <;>
      simp [ensureCelebrationAudioPlayback, showCelebrationAudioPermissionUi,
            hideCelebrationAudioPermissionUi, hw, hp, hg, hv]
  · intro t hb hpz
    cases hv : t.videoActive <;>
      simp [ensureCelebrationAudioPlayback, showCelebrationAudioPermissionUi,
            hideCelebrationAudioPermissionUi, hb, hpz, hv]
  · intro t o hres
    by_cases hguard : t.blocked && !o.allowRetry && !o.forceRetry
    · simp [ensureCelebrationAudioPlayback, hguard] at hres
    · by_cases hplay : (!t.audioPaused && !t.audioEnded) = true
      · cases hv : t.videoActive <;>
          simp [ensureCelebrationAudioPlayback, hguard, hplay, hv,
                hideCelebrationAudioPermissionUi] at hres ⊢
      · rw [Bool.not_eq_true] at hplay
        cases hv : t.videoActive <;>
          simp [ensureCelebrationAudioPlayback, hguard, hplay, hv,
                hideCelebrationAudioPermissionUi]

/-! ## Celebration media sync handlers (main.js lines 2473-2617)

`setupCelebrationMediaSync` registers closures on the video element that
drive the separate audio element.  Media clock values and volumes are
modelled as rationals.  The state fields mirror the live properties of the
two elements plus the closure variable `hasUserAdjustedVolume`. -/

structure SyncState where
  videoTime : ℚ
  audioTime : ℚ
  videoPaused : Bool
  audioPaused : Bool
  videoMuted : Bool
  audioMuted : Bool
  videoVolume : ℚ
  audioVolume : ℚ
  videoRate : ℚ
  audioRate : ℚ
  hasUserAdjustedVolume : Bool
deriving Repr, DecidableEq

/-- The resynchronization tolerance compared against the drift in
`ensureAudioSync` (main.js line 2500). -/
def SYNC_DRIFT_TOLERANCE : ℚ := 35 / 100

/-- Embeds the `ensureAudioSync` closure (main.js lines 2492-2506): when
the absolute drift between the audio and video clocks exceeds the
tolerance, the audio clock is set to the video clock (the
`Number.isFinite` guards always pass for rational clock values). -/
def ensureAudioSync (s : SyncState) : SyncState :=
  if |s.audioTime - s.videoTime| > SYNC_DRIFT_TOLERANCE then
    { s with audioTime := s.videoTime }
  else s

/-- Embeds the `applyVolumeState` closure (main.js lines 2508-2512): the
audio mute flag and volume copy the video's. -/
def applyVolumeState (s : SyncState) : SyncState :=
  { s with audioMuted := s.videoMuted, audioVolume := s.videoVolume }

/-- Embeds the `applyPlaybackRate` closure (main.js lines 2514-2520):
`audio.playbackRate = video.playbackRate || 1`, so a zero video rate falls
back to 1. -/
def applyPlaybackRate (s : SyncState) : SyncState :=
  { s with audioRate := if s.videoRate = 0 then 1 else s.videoRate }

/-- Embeds the `ensureAudioAudibleWhenVideoMuted` closure (main.js lines
2522-2530): while the video is muted and the user has not adjusted the
volume, the audio is unmuted at the video's volume. -/
def ensureAudioAudibleWhenVideoMuted (s : SyncState) : SyncState :=
  if !s.videoMuted || s.hasUserAdjustedVolume then s
  else { s with audioMuted := false, audioVolume := s.videoVolume }

/-- Embeds the media-state effects of the `handleVideoPlay` closure
(main.js lines 2544-2566): resynchronize the clocks, copy volume state,
keep the audio audible under a muted video, copy the playback rate, then
start the audio (`audio.play()`, unpausing it when the attempt resolves).
The trailing `ensureCelebrationAudioPlayback` calls of the closure are the
playback-ensure path embedded separately above; they never touch the audio
clock. -/
def handleVideoPlay (playResolved : Bool) (s : SyncState) : SyncState :=
  let s1 := applyPlaybackRate
    (ensureAudioAudibleWhenVideoMuted (applyVolumeState (ensureAudioSync s)))
  if playResolved then { s1 with audioPaused := false } else s1

/-- Embeds the `handleVideoPause` closure (main.js lines 2568-2570):
the audio is paused when the video pauses. -/
def handleVideoPause (s : SyncState) : SyncState :=
  { s with audioPaused := true }

/-- Embeds the `handleVideoEnded` closure (main.js lines 2572-2579): the
audio is paused and rewound to clock position 0 when the video ends. -/
def handleVideoEnded (s : SyncState) : SyncState :=
  { s with audioPaused := true, audioTime := 0 }

/-- Embeds the `handleVideoVolumeChange` closure (main.js lines
2532-2542): a trusted event marks the volume as user-adjusted; the video's
volume state is copied to the audio; without a user adjustment the audio
is kept audible under a muted video. -/
def handleVideoVolumeChange (isTrusted : Bool) (s : SyncState) : SyncState :=
  let s1 := { s with hasUserAdjustedVolume := s.hasUserAdjustedVolume || isTrusted }
  let s2 := applyVolumeState s1
  if !s2.hasUserAdjustedVolume then ensureAudioAudibleWhenVideoMuted s2 else s2

@[simp] lemma applyVolumeState_audioTime (s : SyncState) :
    (applyVolumeState s).audioTime = s.audioTime := rfl

@[simp] lemma applyVolumeState_videoTime (s : SyncState) :
    (applyVolumeState s).videoTime = s.videoTime := rfl

@[simp] lemma applyPlaybackRate_audioTime (s : SyncState) :
    (applyPlaybackRate s).audioTime = s.audioTime := rfl

@[simp] lemma applyPlaybackRate_videoTime (s : SyncState) :
    (applyPlaybackRate s).videoTime = s.videoTime := rfl

@[simp] lemma ensureAudioAudible_audioTime (s : SyncState) :
    (ensureAudioAudibleWhenVideoMuted s).audioTime = s.audioTime := by
  unfold ensureAudioAudibleWhenVideoMuted; split <;> rfl

@[simp] lemma ensureAudioAudible_videoTime (s : SyncState) :
    (ensureAudioAudibleWhenVideoMuted s).videoTime = s.videoTime := by
  unfold ensureAudioAudibleWhenVideoMuted; split <;> rfl

@[simp] lemma ensureAudioSync_videoTime (s : SyncState) :
    (ensureAudioSync s).videoTime = s.videoTime := by
  unfold ensureAudioSync; split <;> rfl

lemma handleVideoPlay_audioTime (b : Bool) (s : SyncState) :
    (handleVideoPlay b s).audioTime = (ensureAudioSync s).audioTime := by
  unfold handleVideoPlay; cases b <;> simp

lemma handleVideoPlay_videoTime (b : Bool) (s : SyncState) :
    (handleVideoPlay b s).videoTime = s.videoTime := by
  unfold handleVideoPlay; cases b <;> simp

/-- C5: the registered sync handlers (main.js lines 2599-2605) keep the
audio in lockstep with the video: on every video `play` the audio clock is
reset to the video clock exactly when the drift exceeds the 0.35 s
tolerance (so afterwards the drift is within tolerance); `pause` pauses
the audio; `ended` pauses the audio and rewinds it to 0; `volumechange`
mirrors the video's volume to the audio; and `ratechange` mirrors any
nonzero playback rate to the audio. -/
theorem media_sync_lockstep (s : SyncState) (b t : Bool) :
    (handleVideoPlay b s).audioTime =
      (if |s.audioTime - s.videoTime| > SYNC_DRIFT_TOLERANCE
        then s.videoTime else s.audioTime)
    ∧ |(handleVideoPlay b s).audioTime - (handleVideoPlay b s).videoTime|
        ≤ SYNC_DRIFT_TOLERANCE
    ∧ (handleVideoPause s).audioPaused = true
    ∧ (handleVideoEnded s).audioPaused = true
    ∧ (handleVideoEnded s).audioTime = 0
    ∧ (handleVideoVolumeChange t s).audioVolume = s.videoVolume
    ∧ (s.videoRate ≠ 0 → (applyPlaybackRate s).audioRate = s.videoRate) := by
  have hsync : (handleVideoPlay b s).audioTime =
      (if |s.audioTime - s.videoTime| > SYNC_DRIFT_TOLERANCE
        then s.videoTime else s.audioTime) := by
    rw [handleVideoPlay_audioTime]
    unfold ensureAudioSync
    split <;> simp_all
  refine ⟨hsync, ?_, rfl, rfl, rfl, ?_, ?_⟩
  · rw [hsync, handleVideoPlay_videoTime]
    by_cases h : |s.audioTime - s.videoTime| > SYNC_DRIFT_TOLERANCE
    · simp only [if_pos h, sub_self, abs_zero]
      norm_num [SYNC_DRIFT_TOLERANCE]
    · simpa [h] using le_of_not_lt h
  · unfold handleVideoVolumeChange applyVolumeState
      ensureAudioAudibleWhenVideoMuted
    dsimp only
    split <;> first
      | (split <;> rfl)
      | rfl
  · intro h
    unfold applyPlaybackRate
    simp [h]

/-! ## Countdown, border-cell reveal and experience start
(main.js lines 2046-2083, 3221-3326, 4244-4258, 4474-4602)

The state collects the module-level countdown variables (`currentValue`,
`revealedCells`, `countdownIntervalId`, `hasStarted`, main.js lines
3304-3307), the border-cell visibility flags in reveal order, the
constant environment flags (`prefersReducedMotion`,
`isMobileExperienceActive`, DOM-element presence), and observation
histories: the values written to the countdown display, the delays of
scheduled `showCelebrationVideo` timeouts, and counters for the direct
fallback calls and timer armings. -/

/-- Tick interval of the repeating countdown timer (main.js line 2049). -/
def COUNTDOWN_INTERVAL_MS : Nat := 1100

/-- Settle delay before the celebration video after the countdown
finishes (main.js line 2050). -/
def COUNTDOWN_COMPLETE_VIDEO_DELAY_MS : Nat := 400

/-- Fallback start value when no border cells exist (main.js line 2083). -/
def COUNTDOWN_START_FALLBACK : Nat := 10

/-- Frame transition delay (main.js line 2047). -/
def CELEBRATION_TRANSITION_DELAY_MS : Nat := 520

/-- Default mobile photo display duration (main.js line 2073). -/
def MOBILE_PHOTO_DEFAULT_DURATION_MS : Int := 1600

/-- One entry of `MOBILE_PHOTO_CYCLE_DURATIONS` (main.js lines 2075-2078);
the field called `min` in the source is `minimum` here. -/
structure CycleDurationSettings where
  start : Int
  step : Int
  minimum : Int
deriving Repr, DecidableEq

/-- Embeds `MOBILE_PHOTO_CYCLE_DURATIONS` (main.js lines 2075-2078). -/
def MOBILE_PHOTO_CYCLE_DURATIONS : List CycleDurationSettings :=
  [⟨2000, 140, 1200⟩, ⟨1100, 160, 420⟩]

/-- Embeds `getMobilePhotoDisplayDuration` (main.js lines 3282-3291):
under reduced motion the default duration is returned; otherwise the
first cycle's settings interpolate `start - step * photoIndex` downwards,
clamped at `minimum`.  The `cycleIndex` parameter is accepted for
compatibility but unused, as in the source. -/
def getMobilePhotoDisplayDuration (reduced : Bool)
    (cycleIndex photoIndex : Nat) : Int :=
  if reduced then MOBILE_PHOTO_DEFAULT_DURATION_MS
  else
    let settings := MOBILE_PHOTO_CYCLE_DURATIONS.headD ⟨0, 0, 0⟩
    max settings.minimum (settings.start - settings.step * photoIndex)

/-- Embeds the frame transition delay computation
`prefersReducedMotion ? 0 : CELEBRATION_TRANSITION_DELAY_MS`
(main.js lines 4258 and 4436). -/
def transitionDelay (reduced : Bool) : Nat :=
  if reduced then 0 else CELEBRATION_TRANSITION_DELAY_MS

/-- Embeds `countdownStart` (main.js line 3302): the number of border
cells when any exist, the fallback of 10 otherwise. -/
def countdownStart (numCells : Nat) : Nat :=
  if 0 < numCells then numCells else COUNTDOWN_START_FALLBACK

/-- Visibility flags of the border cells right after module
initialization (main.js lines 3222-3231): every cell starts without the
`is-visible` class, and with reduced motion every cell receives it
immediately. -/
def initialVisible (reduced : Bool) (numCells : Nat) : List Bool :=
  List.replicate numCells reduced

structure AppState where
  reduced : Bool
  isMobile : Bool
  numberPresent : Bool
  wrapperPresent : Bool
  visible : List Bool
  revealedCells : Nat
  currentValue : Int
  intervalActive : Bool
  armCount : Nat
  initialRenders : List Int
  tickRenders : List Int
  videoDirect : Nat
  videoScheduled : List Nat
  hasStarted : Bool
  mobileStarts : Nat
  audioPrimed : Bool
  sneakPrimed : Bool
  overlayCleared : Bool
deriving Repr, DecidableEq

/-- The module state right after initialization, given the environment
flags and the number of border cells: `currentValue = countdownStart`,
`revealedCells = 0`, no interval, nothing started
(main.js lines 3302-3307). -/
def initAppState (reduced isMobile numberPresent wrapperPresent : Bool)
    (numCells : Nat) : AppState :=
  ⟨reduced, isMobile, numberPresent, wrapperPresent,
   initialVisible reduced numCells, 0, (countdownStart numCells : Int),
   false, 0, [], [], 0, [], false, 0, false, false, false⟩

/-- Embeds `revealNextBorderCell` (main.js lines 3318-3326): a no-op
under reduced motion or an active mobile experience; otherwise the cell
at index `revealedCells`, when it exists, gains the `is-visible` class
and the counter increments. -/
def revealNextBorderCell (s : AppState) : AppState :=
  if s.reduced || s.isMobile then s
  else
    match s.visible[s.revealedCells]? with
    | some _ =>
        { s with visible := s.visible.set s.revealedCells true,
                 revealedCells := s.revealedCells + 1 }
    | none => s

/-- Embeds `handleCountdownTick` (main.js lines 4474-4513): a guard
returns when the countdown display is absent; otherwise the counter
decrements; at a terminal value (`<= 0`) the display renders `0`, the
interval is cleared, one more reveal runs and `showCelebrationVideo` is
scheduled after the settle delay; otherwise the new value is rendered and
one reveal runs. -/
def handleCountdownTick (s : AppState) : AppState :=
  if !s.numberPresent then s
  else
    let v := s.currentValue - 1
    if v ≤ 0 then
      let s1 := revealNextBorderCell
        { s with currentValue := v,
                 tickRenders := s.tickRenders ++ [0],
                 intervalActive := false }
      { s1 with videoScheduled :=
          s1.videoScheduled ++ [COUNTDOWN_COMPLETE_VIDEO_DELAY_MS] }
    else
      revealNextBorderCell
        { s with currentValue := v, tickRenders := s.tickRenders ++ [v] }

/-- One firing opportunity of the repeating timer: the tick handler runs
only while the interval armed by `startCountdownFlow` has not been
cleared. -/
def stepTimer (s : AppState) : AppState :=
  if s.intervalActive then handleCountdownTick s else s

/-- Embeds `startCountdownFlow` (main.js lines 4515-4532): the mobile
experience branches to the photo sequence; a missing countdown display or
wrapper skips straight to `showCelebrationVideo`; otherwise the start
value is rendered, one reveal runs and the repeating interval is armed. -/
def startCountdownFlow (s : AppState) : AppState :=
  if s.isMobile then { s with mobileStarts := s.mobileStarts + 1 }
  else if !s.numberPresent || !s.wrapperPresent then
    { s with videoDirect := s.videoDirect + 1 }
  else
    let s1 := revealNextBorderCell
      { s with initialRenders := s.initialRenders ++ [s.currentValue] }
    { s1 with intervalActive := true, armCount := s1.armCount + 1 }

/-- Embeds `startExperience` (main.js lines 4535-4577): the `hasStarted`
guard returns immediately on re-entry; a first call sets the guard,
clears the overlay, primes the audio elements and enters the mobile
sequence or the countdown flow. -/
def startExperience (s : AppState) : AppState :=
  if s.hasStarted then s
  else
    let s1 := { s with hasStarted := true, overlayCleared := true,
                       audioPrimed := true, sneakPrimed := true }
    if s1.isMobile then { s1 with mobileStarts := s1.mobileStarts + 1 }
    else startCountdownFlow s1

/-! ### Bookkeeping lemmas for the reveal operation -/

@[simp] lemma reveal_reduced (s : AppState) :
    (revealNextBorderCell s).reduced = s.reduced := by
  unfold revealNextBorderCell; split <;> first | rfl | (split <;> rfl)

@[simp] lemma reveal_isMobile (s : AppState) :
    (revealNextBorderCell s).isMobile = s.isMobile := by
  unfold revealNextBorderCell; split <;> first | rfl | (split <;> rfl)

@[simp] lemma reveal_numberPresent (s : AppState) :
    (revealNextBorderCell s).numberPresent = s.numberPresent := by
  unfold revealNextBorderCell; split <;> first | rfl | (split <;> rfl)

@[simp] lemma reveal_wrapperPresent (s : AppState) :
    (revealNextBorderCell s).wrapperPresent = s.wrapperPresent := by
  unfold revealNextBorderCell; split <;> first | rfl | (split <;> rfl)

@[simp] lemma reveal_currentValue (s : AppState) :
    (revealNextBorderCell s).currentValue = s.currentValue := by
  unfold revealNextBorderCell; split <;> first | rfl | (split <;> rfl)

@[simp] lemma reveal_intervalActive (s : AppState) :
    (revealNextBorderCell s).intervalActive = s.intervalActive := by
  unfold revealNextBorderCell; split <;> first | rfl | (split <;> rfl)

@[simp] lemma reveal_armCount (s : AppState) :
    (revealNextBorderCell s).armCount = s.armCount := by
  unfold revealNextBorderCell; split <;> first | rfl | (split <;> rfl)

@[simp] lemma reveal_initialRenders (s : AppState) :
    (revealNextBorderCell s).initialRenders = s.initialRenders := by
  unfold revealNextBorderCell; split <;> first | rfl | (split <;> rfl)

@[simp] lemma reveal_tickRenders (s : AppState) :
    (revealNextBorderCell s).tickRenders = s.tickRenders := by
  unfold revealNextBorderCell; split <;> first | rfl | (split <;> rfl)

@[simp] lemma reveal_videoDirect (s : AppState) :
    (revealNextBorderCell s).videoDirect = s.videoDirect := by
  unfold revealNextBorderCell; split <;> first | rfl | (split <;> rfl)

@[simp] lemma reveal_videoScheduled (s : AppState) :
    (revealNextBorderCell s).videoScheduled = s.videoScheduled := by
  unfold revealNextBorderCell; split <;> first | rfl | (split <;> rfl)

@[simp] lemma reveal_hasStarted (s : AppState) :
    (revealNextBorderCell s).hasStarted = s.hasStarted := by
  unfold revealNextBorderCell; split <;> first | rfl | (split <;> rfl)

@[simp] lemma reveal_mobileStarts (s : AppState) :
    (revealNextBorderCell s).mobileStarts = s.mobileStarts := by
  unfold revealNextBorderCell; split <;> first | rfl | (split <;> rfl)

@[simp] lemma reveal_visible_length (s : AppState) :
    (revealNextBorderCell s).visible.length = s.visible.length := by
  unfold revealNextBorderCell; split <;> first | rfl | (split <;> simp)

/-- Setting any cell of a Boolean list to `true` never decreases the
number of `true` entries. -/
lemma count_true_le_count_true_set (l : List Bool) (i : Nat) :
    l.count true ≤ (l.set i true).count true := by
  induction l generalizing i with
  | nil => simp
  | cons b bs ih =>
      cases i with
      | zero => cases b <;> simp [List.count_cons]
      | succ j =>
          cases b <;> simp [List.count_cons] <;> exact ih j

/-- A saturated reveal state (every cell index below `revealedCells`) is a
fixed point of `revealNextBorderCell`. -/
lemma reveal_saturated_fixed (s : AppState)
    (h : s.visible.length ≤ s.revealedCells) :
    revealNextBorderCell s = s := by
  unfold revealNextBorderCell
  split
  · rfl
  · rw [List.getElem?_eq_none h]

/-- C6: the advance-reveal operation is monotonic and saturating: the
revealed-cell counter never decreases and grows by at most one per call,
the number of visible cells never decreases, each call either changes
nothing or activates exactly the next frame (index `revealedCells`), and
from any saturated state every further call is a no-op. -/
theorem reveal_monotonic_saturating (s : AppState) (k : Nat) :
    s.revealedCells ≤ (revealNextBorderCell s).revealedCells
    ∧ (revealNextBorderCell s).revealedCells ≤ s.revealedCells + 1
    ∧ s.visible.count true ≤ (revealNextBorderCell s).visible.count true
    ∧ (revealNextBorderCell s = s
        ∨ ((revealNextBorderCell s).visible = s.visible.set s.revealedCells true
            ∧ (revealNextBorderCell s).revealedCells = s.revealedCells + 1))
    ∧ (s.visible.length ≤ s.revealedCells → revealNextBorderCell^[k] s = s) := by
  refine ⟨?_, ?_, ?_, ?_, ?_⟩
  · unfold revealNextBorderCell
    split
    · exact le_refl _
    · split <;> simp
  · unfold revealNextBorderCell
    split
    · exact Nat.le_succ _
    · split <;> simp
  · unfold revealNextBorderCell
    split
    · exact le_refl _
    · split
      · exact count_true_le_count_true_set s.visible s.revealedCells
      · exact le_refl _
  · unfold revealNextBorderCell
    split
    · exact Or.inl rfl
    · split
      · exact Or.inr ⟨rfl, rfl⟩
      · exact Or.inl rfl
  · intro h
    exact Function.iterate_fixed (reveal_saturated_fixed s h) k

/-- C7 counterexample: with reduced motion enabled the per-photo display
duration returned by `getMobilePhotoDisplayDuration` is the 1600 ms
default, not zero, so not every per-frame duration collapses to zero. -/
theorem reduced_motion_duration_not_zero :
    getMobilePhotoDisplayDuration true 0 0 = 1600
    ∧ getMobilePhotoDisplayDuration true 0 0 ≠ 0 := by decide

/-- C7 amended: with reduced motion enabled every border cell is marked
revealed synchronously at initialization (before any countdown tick), the
frame transition delay collapses to zero, and the per-photo display
duration collapses to the position-independent default of 1600 ms rather
than zero. -/
theorem reduced_motion_reveal_and_delays (n i j : Nat) :
    initialVisible true n = List.replicate n true
    ∧ (∀ x ∈ initialVisible true n, x = true)
    ∧ transitionDelay true = 0
    ∧ getMobilePhotoDisplayDuration true i j = MOBILE_PHOTO_DEFAULT_DURATION_MS := by
  refine ⟨rfl, ?_, rfl, rfl⟩
  intro x hx
  exact List.eq_of_mem_replicate hx

/-- C8: on the desktop flow, when the countdown display or its wrapper is
absent, `startCountdownFlow` skips directly to the completion callback
(`showCelebrationVideo`) and changes nothing else — no render, no reveal,
no timer armed; and `handleCountdownTick` is a guarded no-op whenever the
display is absent. -/
theorem missing_target_skips_to_video (s : AppState)
    (hm : s.isMobile = false)
    (habs : s.numberPresent = false ∨ s.wrapperPresent = false) :
    startCountdownFlow s = { s with videoDirect := s.videoDirect + 1 }
    ∧ (startCountdownFlow s).intervalActive = s.intervalActive
    ∧ (startCountdownFlow s).armCount = s.armCount
    ∧ (∀ t : AppState, t.numberPresent = false → handleCountdownTick t = t) := by
  have h1 : startCountdownFlow s = { s with videoDirect := s.videoDirect + 1 } := by
    unfold startCountdownFlow
    rcases habs with h | h <;> simp [hm, h]
  refine ⟨h1, by rw [h1], by rw [h1], ?_⟩
  intro t ht
  unfold handleCountdownTick
  simp [ht]

/-! ### Running the repeating countdown timer -/

/-- A cleared interval never ticks again. -/
lemma stepTimer_inactive (s : AppState) (h : s.intervalActive = false) :
    stepTimer s = s := by
  unfold stepTimer; simp [h]

/-- A tick at a counter value of at least 2 takes the non-terminal
branch: it renders the decremented value and runs one reveal. -/
lemma tick_nonterminal (s : AppState) (c : Nat) (hc : 1 ≤ c)
    (h1 : s.numberPresent = true) (h2 : s.intervalActive = true)
    (h3 : s.currentValue = ((c + 1 : Nat) : Int)) :
    stepTimer s = revealNextBorderCell
      { s with currentValue := ((c : Nat) : Int),
               tickRenders := s.tickRenders ++ [((c : Nat) : Int)] } := by
  have hv : s.currentValue - 1 = ((c : Nat) : Int) := by
    rw [h3]; push_cast; ring
  have hpos : ¬(((c : Nat) : Int) ≤ 0) := not_le.mpr (by exact_mod_cast hc)
  unfold stepTimer handleCountdownTick
  simp [h1, h2, hv, hpos]

/-- A tick at counter value 1 takes the terminal branch: it renders `0`,
clears the interval, runs one reveal and schedules the celebration video
after the settle delay; on a saturated reveal state that reveal changes
nothing. -/
lemma tick_terminal_fields (s : AppState)
    (h1 : s.numberPresent = true) (h2 : s.intervalActive = true)
    (h3 : s.currentValue = 1) :
    (stepTimer s).intervalActive = false
    ∧ (stepTimer s).tickRenders = s.tickRenders ++ [0]
    ∧ (stepTimer s).videoScheduled =
        s.videoScheduled ++ [COUNTDOWN_COMPLETE_VIDEO_DELAY_MS]
    ∧ (s.visible.length ≤ s.revealedCells →
        (stepTimer s).visible = s.visible
        ∧ (stepTimer s).revealedCells = s.revealedCells) := by
  have hstep : stepTimer s =
      { revealNextBorderCell
          { s with currentValue := 0,
                   tickRenders := s.tickRenders ++ [0],
                   intervalActive := false }
        with videoScheduled :=
          (revealNextBorderCell
            { s with currentValue := 0,
                     tickRenders := s.tickRenders ++ [0],
                     intervalActive := false }).videoScheduled
          ++ [COUNTDOWN_COMPLETE_VIDEO_DELAY_MS] } := by
    unfold stepTimer handleCountdownTick
    simp [h1, h2, h3]
  refine ⟨by rw [hstep]; simp, by rw [hstep]; simp, by rw [hstep]; simp, ?_⟩
  intro hsat
  have hfix := reveal_saturated_fixed
    { s with currentValue := 0,
             tickRenders := s.tickRenders ++ [0],
             intervalActive := false } (by simpa using hsat)
  rw [hstep, hfix]
  exact ⟨rfl, rfl⟩

/-- Bookkeeping of `i` non-terminal ticks: while at least one more tick
remains before the terminal one, the interval stays armed, the counter
goes down by one per tick, each tick appends one render, and no
completion is scheduled. -/
lemma runTicks_mid (i : Nat) :
    ∀ (s : AppState) (c : Nat), i ≤ c →
      s.numberPresent = true → s.intervalActive = true →
      s.currentValue = ((c + 1 : Nat) : Int) →
      (stepTimer^[i] s).numberPresent = true
      ∧ (stepTimer^[i] s).intervalActive = true
      ∧ (stepTimer^[i] s).currentValue = ((c + 1 - i : Nat) : Int)
      ∧ (stepTimer^[i] s).tickRenders.length = s.tickRenders.length + i
      ∧ (stepTimer^[i] s).videoScheduled = s.videoScheduled := by
  induction i with
  | zero =>
      intro s c _ h1 h2 h3
      exact ⟨h1, h2, by simpa using h3, by simp, rfl⟩
  | succ i ih =>
      intro s c hic h1 h2 h3
      have hc1 : 1 ≤ c := le_trans (Nat.succ_le_succ (Nat.zero_le i)) hic
      have hstep := tick_nonterminal s c hc1 h1 h2 h3
      have hnext : stepTimer^[i + 1] s = stepTimer^[i] (stepTimer s) :=
        Function.iterate_succ_apply stepTimer i s
      obtain ⟨g1, g2, g3, g4, g5⟩ :=
        ih (stepTimer s) (c - 1) (by omega)
          (by rw [hstep]; simp [h1])
          (by rw [hstep]; simp [h2])
          (by rw [hstep]; simp; omega)
      rw [hnext]
      refine ⟨g1, g2, ?_, ?_, ?_⟩
      · rw [g3]; congr 1; omega
      · rw [g4, hstep]; simp; omega
      · rw [g5, hstep]; simp

/-- Running any `k ≥ N` firing opportunities from an armed countdown at
value `N ≥ 1` appends exactly `N` tick renders, schedules the celebration
video exactly once (after the settle delay) and leaves the interval
cleared. -/
lemma run_to_completion (s : AppState) (N k : Nat)
    (hN : 1 ≤ N) (hk : N ≤ k)
    (h1 : s.numberPresent = true) (h2 : s.intervalActive = true)
    (h3 : s.currentValue = (N : Int)) :
    (stepTimer^[k] s).tickRenders.length = s.tickRenders.length + N
    ∧ (stepTimer^[k] s).videoScheduled =
        s.videoScheduled ++ [COUNTDOWN_COMPLETE_VIDEO_DELAY_MS]
    ∧ (stepTimer^[k] s).intervalActive = false := by
  obtain ⟨g1, g2, g3, g4, g5⟩ :=
    runTicks_mid (N - 1) s (N - 1) (le_refl _) h1 h2
      (by rw [h3]; congr 1; omega)
  have hmidval : (stepTimer^[N - 1] s).currentValue = 1 := by
    rw [g3]
    have h : N - 1 + 1 - (N - 1) = 1 := by omega
    rw [h]; simp
  obtain ⟨t1, t2, t3, _⟩ := tick_terminal_fields (stepTimer^[N - 1] s) g1 g2 hmidval
  have hNsplit : stepTimer^[N] s = stepTimer (stepTimer^[N - 1] s) := by
    have hN1 : N - 1 + 1 = N := Nat.sub_add_cancel hN
    calc stepTimer^[N] s = stepTimer^[N - 1 + 1] s := by rw [hN1]
      _ = stepTimer (stepTimer^[N - 1] s) :=
          Function.iterate_succ_apply' stepTimer (N - 1) s
  have hT1 : (stepTimer^[N] s).tickRenders.length = s.tickRenders.length + N := by
    rw [hNsplit, t2]
    simp [g4]
    omega
  have hT2 : (stepTimer^[N] s).videoScheduled =
      s.videoScheduled ++ [COUNTDOWN_COMPLETE_VIDEO_DELAY_MS] := by
    rw [hNsplit, t3, g5]
  have hT3 : (stepTimer^[N] s).intervalActive = false := by
    rw [hNsplit]; exact t1
  have hksplit : stepTimer^[k] s = stepTimer^[k - N] (stepTimer^[N] s) := by
    conv_lhs => rw [show k = (k - N) + N from by omega]
    exact Function.iterate_add_apply stepTimer (k - N) N s
  have hfix : stepTimer^[k - N] (stepTimer^[N] s) = stepTimer^[N] s :=
    Function.iterate_fixed (stepTimer_inactive _ hT3) (k - N)
  rw [hksplit, hfix]
  exact ⟨hT1, hT2, hT3⟩

/-- C1: starting the desktop countdown flow at any value `N ≥ 1` (with the
display and wrapper present) and letting the repeating timer run produces
exactly `N` tick renders of the counter, and then the completion callback
(`showCelebrationVideo`) is scheduled exactly once, after the fixed 400 ms
settle delay, with the interval cleared. -/
theorem countdown_tick_renders_and_completion (s : AppState) (N k : Nat)
    (hN : 1 ≤ N) (hk : N ≤ k)
    (hmob : s.isMobile = false) (hnum : s.numberPresent = true)
    (hwrap : s.wrapperPresent = true)
    (hval : s.currentValue = (N : Int))
    (hren : s.tickRenders = []) (hsch : s.videoScheduled = []) :
    (stepTimer^[k] (startCountdownFlow s)).tickRenders.length = N
    ∧ (stepTimer^[k] (startCountdownFlow s)).videoScheduled
        = [COUNTDOWN_COMPLETE_VIDEO_DELAY_MS]
    ∧ (stepTimer^[k] (startCountdownFlow s)).intervalActive = false := by
  have f1 : (startCountdownFlow s).numberPresent = true := by
    unfold startCountdownFlow; simp [hmob, hnum, hwrap]
  have f2 : (startCountdownFlow s).intervalActive = true := by
    unfold startCountdownFlow; simp [hmob, hnum, hwrap]
  have f3 : (startCountdownFlow s).currentValue = (N : Int) := by
    unfold startCountdownFlow; simp [hmob, hnum, hwrap, hval]
  have f4 : (startCountdownFlow s).tickRenders = [] := by
    unfold startCountdownFlow; simp [hmob, hnum, hwrap, hren]
  have f5 : (startCountdownFlow s).videoScheduled = [] := by
    unfold startCountdownFlow; simp [hmob, hnum, hwrap, hsch]
  obtain ⟨r1, r2, r3⟩ :=
    run_to_completion (startCountdownFlow s) N k hN hk f1 f2 f3
  refine ⟨?_, ?_, r3⟩
  · rw [r1, f4]; simp
  · rw [r2, f5]; simp

/-! ### Starting the experience -/

@[simp] lemma startCountdownFlow_hasStarted (s : AppState) :
    (startCountdownFlow s).hasStarted = s.hasStarted := by
  unfold startCountdownFlow
  split
  · rfl
  · split
    · rfl
    · simp

/-- After any call of `startExperience` the `hasStarted` guard is set. -/
lemma startExperience_hasStarted (s : AppState) :
    (startExperience s).hasStarted = true ∨ startExperience s = s := by
  unfold startExperience
  split
  · exact Or.inr rfl
  · left
    dsimp only
    split
    · rfl
    · simp

/-- A state whose guard is set is a fixed point of `startExperience`. -/
lemma startExperience_of_started (s : AppState) (h : s.hasStarted = true) :
    startExperience s = s := by
  unfold startExperience; simp [h]

/-- Applying `startExperience` twice equals applying it once. -/
lemma startExperience_idem (s : AppState) :
    startExperience (startExperience s) = startExperience s := by
  rcases startExperience_hasStarted s with h | h
  · exact startExperience_of_started _ h
  · rwa [h]

/-- C9: starting the experience is idempotent per page lifetime: any
number `k ≥ 1` of rapid start triggers has exactly the effect of the
first one; every call on an already started state changes nothing; and
from a fresh desktop state with the countdown elements present, the
repeating timer is armed exactly once no matter how many triggers
fire. -/
theorem start_experience_idempotent (s : AppState) (k : Nat) (hk : 1 ≤ k) :
    startExperience^[k] s = startExperience s
    ∧ (s.hasStarted = true → startExperience^[k] s = s)
    ∧ (s.hasStarted = false → s.isMobile = false → s.numberPresent = true →
        s.wrapperPresent = true →
        (startExperience^[k] s).armCount = s.armCount + 1
        ∧ (startExperience^[k] s).intervalActive = true) := by
  have hiter : startExperience^[k] s = startExperience s := by
    obtain ⟨j, rfl⟩ : ∃ j, k = j + 1 := ⟨k - 1, by omega⟩
    rw [Function.iterate_succ_apply]
    exact Function.iterate_fixed (startExperience_idem s) j
  refine ⟨hiter, ?_, ?_⟩
  · intro h
    rw [hiter, startExperience_of_started s h]
  · intro h0 hm hn hw
    rw [hiter]
    unfold startExperience startCountdownFlow
    simp [h0, hm, hn, hw]

/-! ### Shape of the border-cell visibility list during the desktop run -/

/-- Visibility flags after `j` successful reveals on `n` cells that all
started hidden: exactly the first `j` cells are visible. -/
def visAfter (j n : Nat) : List Bool :=
  (List.range n).map (fun i => decide (i < j))

@[simp] lemma visAfter_length (j n : Nat) : (visAfter j n).length = n := by
  simp [visAfter]

lemma visAfter_zero (n : Nat) : visAfter 0 n = List.replicate n false := by
  rw [List.eq_replicate_iff]
  refine ⟨by simp, ?_⟩
  intro b hb
  rw [visAfter, List.mem_map] at hb
  obtain ⟨i, _, rfl⟩ := hb
  simp

lemma visAfter_self (n : Nat) : visAfter n n = List.replicate n true := by
  rw [List.eq_replicate_iff]
  refine ⟨by simp, ?_⟩
  intro b hb
  rw [visAfter, List.mem_map] at hb
  obtain ⟨i, hi, rfl⟩ := hb
  simp [List.mem_range.mp hi]

lemma visAfter_getElem (j n i : Nat) (h : i < n) :
    (visAfter j n)[i]? = some (decide (i < j)) := by
  simp [visAfter, List.getElem?_map, List.getElem?_range, h]

lemma visAfter_set (j n : Nat) (h : j < n) :
    (visAfter j n).set j true = visAfter (j + 1) n := by
  apply List.ext_getElem?
  intro i
  by_cases hin : i < n
  · by_cases hij : i = j
    · subst hij
      rw [visAfter_getElem (i + 1) n i hin]
      simp [List.getElem?_set, visAfter_length, hin]
    · rw [List.getElem?_set_ne (fun hji => hij hji.symm),
          visAfter_getElem j n i hin, visAfter_getElem (j + 1) n i hin]
      have : i < j ↔ i < j + 1 := by omega
      simp [this]
  · have h1 : ((visAfter j n).set j true)[i]? = none := by
      rw [List.getElem?_eq_none]
      simpa using Nat.le_of_not_lt hin
    have h2 : (visAfter (j + 1) n)[i]? = none := by
      rw [List.getElem?_eq_none]
      simpa using Nat.le_of_not_lt hin
    rw [h1, h2]

/-- One reveal on a desktop state whose cells have the canonical `r`-cells
shape activates exactly the next cell. -/
lemma reveal_shape (s : AppState) (n r : Nat)
    (hred : s.reduced = false) (hmob : s.isMobile = false)
    (hv : s.visible = visAfter r n) (hc : s.revealedCells = r)
    (hrn : r < n) :
    (revealNextBorderCell s).visible = visAfter (r + 1) n
    ∧ (revealNextBorderCell s).revealedCells = r + 1 := by
  have hguard : (s.reduced || s.isMobile) = false := by rw [hred, hmob]; rfl
  have hget : (visAfter r n)[r]? = some false := by
    rw [visAfter_getElem r n r hrn]; simp
  constructor <;>
    simp [revealNextBorderCell, hguard, hget, hv, hc, visAfter_set r n hrn]

/-- Reveal bookkeeping of `i` non-terminal ticks on the desktop run: each
tick activates exactly one further cell. -/
lemma runTicks_reveal (i : Nat) :
    ∀ (s : AppState) (c n r : Nat), i ≤ c →
      s.numberPresent = true → s.intervalActive = true →
      s.currentValue = ((c + 1 : Nat) : Int) →
      s.reduced = false → s.isMobile = false →
      s.visible = visAfter r n → s.revealedCells = r → r + i ≤ n →
      (stepTimer^[i] s).visible = visAfter (r + i) n
      ∧ (stepTimer^[i] s).revealedCells = r + i := by
  induction i with
  | zero =>
      intro s c n r _ _ _ _ _ _ hv hc _
      simpa using ⟨hv, hc⟩
  | succ i ih =>
      intro s c n r hic h1 h2 h3 hred hmob hv hc hrn
      have hc1 : 1 ≤ c := by omega
      have hstep := tick_nonterminal s c hc1 h1 h2 h3
      have hrn1 : r < n := by omega
      have hshape := reveal_shape
        { s with currentValue := ((c : Nat) : Int),
                 tickRenders := s.tickRenders ++ [((c : Nat) : Int)] }
        n r hred hmob hv hc hrn1
      have hnext : stepTimer^[i + 1] s = stepTimer^[i] (stepTimer s) :=
        Function.iterate_succ_apply stepTimer i s
      obtain ⟨w1, w2⟩ :=
        ih (stepTimer s) (c - 1) n (r + 1) (by omega)
          (by rw [hstep]; simp [h1])
          (by rw [hstep]; simp [h2])
          (by rw [hstep]; simp; omega)
          (by rw [hstep]; simp [hred])
          (by rw [hstep]; simp [hmob])
          (by rw [hstep]; exact hshape.1)
          (by rw [hstep]; exact hshape.2)
          (by omega)
      rw [hnext]
      have ha : r + 1 + i = r + (i + 1) := by omega
      rw [ha] at w1 w2
      exact ⟨w1, w2⟩

/-- C10: the countdown start value equals the number of border cells when
any exist (10 as fallback); on the desktop flow with reduced motion off,
one cell is revealed at start and one per tick, and once the countdown
completes every border cell is visible, each having been revealed exactly
once — the terminal tick's reveal and any further reveal saturate as
no-ops. -/
theorem countdown_start_and_full_reveal (n k : Nat) (hn : 1 ≤ n)
    (hk : n ≤ k) :
    countdownStart n = n
    ∧ countdownStart 0 = COUNTDOWN_START_FALLBACK
    ∧ (startCountdownFlow (initAppState false false true true n)).revealedCells = 1
    ∧ (∀ i, i < n →
        (stepTimer^[i] (startCountdownFlow (initAppState false false true true n))).revealedCells
          = 1 + i)
    ∧ (stepTimer^[k] (startCountdownFlow (initAppState false false true true n))).visible
        = List.replicate n true
    ∧ (stepTimer^[k] (startCountdownFlow (initAppState false false true true n))).revealedCells
        = n
    ∧ revealNextBorderCell
        (stepTimer^[k] (startCountdownFlow (initAppState false false true true n)))
        = stepTimer^[k] (startCountdownFlow (initAppState false false true true n)) := by
  have hstart : countdownStart n = n := by
    unfold countdownStart
    rw [if_pos (by omega)]
  -- the initial state and its countdown-flow start
  have hinner := reveal_shape
    { initAppState false false true true n with
        initialRenders := [(countdownStart n : Int)] }
    n 0 rfl rfl
    (by simp [initAppState, initialVisible, visAfter_zero]) rfl (by omega)
  have hflowv : (startCountdownFlow (initAppState false false true true n)).visible
      = visAfter 1 n := by
    unfold startCountdownFlow
    simpa [initAppState] using hinner.1
  have hflowr : (startCountdownFlow (initAppState false false true true n)).revealedCells
      = 1 := by
    unfold startCountdownFlow
    simpa [initAppState] using hinner.2
  have f1 : (startCountdownFlow (initAppState false false true true n)).numberPresent
      = true := by
    unfold startCountdownFlow; simp [initAppState]
  have f2 : (startCountdownFlow (initAppState false false true true n)).intervalActive
      = true := by
    unfold startCountdownFlow; simp [initAppState]
  have f3 : (startCountdownFlow (initAppState false false true true n)).currentValue
      = ((n : Nat) : Int) := by
    unfold startCountdownFlow; simp [initAppState, hstart]
  have fred : (startCountdownFlow (initAppState false false true true n)).reduced
      = false := by
    unfold startCountdownFlow; simp [initAppState]
  have fmob : (startCountdownFlow (initAppState false false true true n)).isMobile
      = false := by
    unfold startCountdownFlow; simp [initAppState]
  have f3' : (startCountdownFlow (initAppState false false true true n)).currentValue
      = (((n - 1) + 1 : Nat) : Int) := by
    rw [f3]; congr 1; omega
  -- one reveal per non-terminal tick
  have hper : ∀ i, i < n →
      (stepTimer^[i] (startCountdownFlow (initAppState false false true true n))).revealedCells
        = 1 + i := by
    intro i hi
    exact (runTicks_reveal i (startCountdownFlow (initAppState false false true true n))
      (n - 1) n 1 (by omega) f1 f2 f3' fred fmob hflowv hflowr (by omega)).2
  -- state after the last non-terminal tick
  obtain ⟨m1, m2⟩ :=
    runTicks_reveal (n - 1) (startCountdownFlow (initAppState false false true true n))
      (n - 1) n 1 (le_refl _) f1 f2 f3' fred fmob hflowv hflowr (by omega)
  obtain ⟨g1, g2, g3, _, _⟩ :=
    runTicks_mid (n - 1) (startCountdownFlow (initAppState false false true true n))
      (n - 1) (le_refl _) f1 f2 f3'
  have hmidval :
      (stepTimer^[n - 1] (startCountdownFlow (initAppState false false true true n))).currentValue
        = 1 := by
    rw [g3]
    have h : n - 1 + 1 - (n - 1) = 1 := by omega
    rw [h]; simp
  have h1n : 1 + (n - 1) = n := by omega
  rw [h1n] at m1 m2
  obtain ⟨t1, _, _, tsat⟩ := tick_terminal_fields _ g1 g2 hmidval
  obtain ⟨u1, u2⟩ := tsat (by rw [m1, m2]; simp)
  have hNsplit :
      stepTimer^[n] (startCountdownFlow (initAppState false false true true n))
        = stepTimer (stepTimer^[n - 1] (startCountdownFlow (initAppState false false true true n))) := by
    have hN1 : n - 1 + 1 = n := Nat.sub_add_cancel hn
    calc stepTimer^[n] (startCountdownFlow (initAppState false false true true n))
        = stepTimer^[n - 1 + 1] (startCountdownFlow (initAppState false false true true n)) := by
          rw [hN1]
      _ = stepTimer (stepTimer^[n - 1] (startCountdownFlow (initAppState false false true true n))) :=
          Function.iterate_succ_apply' stepTimer (n - 1) _
  have hNv : (stepTimer^[n] (startCountdownFlow (initAppState false false true true n))).visible
      = visAfter n n := by rw [hNsplit, u1, m1]
  have hNr : (stepTimer^[n] (startCountdownFlow (initAppState false false true true n))).revealedCells
      = n := by rw [hNsplit, u2, m2]
  have hNa : (stepTimer^[n] (startCountdownFlow (initAppState false false true true n))).intervalActive
      = false := by rw [hNsplit]; exact t1
  have hksplit :
      stepTimer^[k] (startCountdownFlow (initAppState false false true true n))
        = stepTimer^[n] (startCountdownFlow (initAppState false false true true n)) := by
    conv_lhs => rw [show k = (k - n) + n from by omega]
    rw [Function.iterate_add_apply]
    exact Function.iterate_fixed (stepTimer_inactive _ hNa) (k - n)
  refine ⟨hstart, rfl, hflowr, hper, ?_, ?_, ?_⟩
  · rw [hksplit, hNv, visAfter_self]
  · rw [hksplit, hNr]
  · apply reveal_saturated_fixed
    rw [hksplit, hNv, hNr]
    simp

/-! ### Concrete witnesses -/

/-- Witness for C1: a three-cell desktop page counts 3, 2, 1 renders down
to the terminal 0 and schedules the celebration video exactly once. -/
theorem countdown_tick_renders_and_completion_witness :
    (stepTimer^[5] (startCountdownFlow (initAppState false false true true 3))).tickRenders.length = 3
    ∧ (stepTimer^[5] (startCountdownFlow (initAppState false false true true 3))).videoScheduled
        = [COUNTDOWN_COMPLETE_VIDEO_DELAY_MS]
    ∧ (stepTimer^[5] (startCountdownFlow (initAppState false false true true 3))).intervalActive
        = false :=
  countdown_tick_renders_and_completion (initAppState false false true true 3) 3 5
    (by decide) (by decide) rfl rfl rfl (by decide) rfl rfl

/-- Witness for C4: a rejected not-allowed play attempt on a fresh state
with the video wrapper present blocks playback and shows the retry UI. -/
theorem audio_blocked_flag_and_permission_ui_witness :
    (ensureCelebrationAudioPlayback ⟨false, false, false⟩ (.rejected true)
        ⟨false, false, true, true, false, false, false, false⟩).1.blocked = true
    ∧ (ensureCelebrationAudioPlayback ⟨false, false, false⟩ (.rejected true)
        ⟨false, false, true, true, false, false, false, false⟩).1.uiVisible = true :=
  (audio_blocked_flag_and_permission_ui
    ⟨false, false, true, true, false, false, false, false⟩
    ⟨false, false, false⟩ rfl (Or.inl rfl) (Or.inl rfl)).1

/-- Witness for C5: a ratechange at video playback rate 2 mirrors the rate
to the audio element. -/
theorem media_sync_lockstep_witness :
    (applyPlaybackRate
        (⟨1, 0, false, true, true, false, 1, 1, 2, 1, false⟩ : SyncState)).audioRate = 2 :=
  (media_sync_lockstep ⟨1, 0, false, true, true, false, 1, 1, 2, 1, false⟩
    true false).2.2.2.2.2.2 (by norm_num)

/-- Witness for C6: on a fully revealed two-cell state three further
advance calls change nothing. -/
theorem reveal_monotonic_saturating_witness :
    revealNextBorderCell^[3]
        (⟨false, false, true, true, [true, true], 2, 0, false, 0, [], [], 0, [],
          false, 0, false, false, false⟩ : AppState)
      = ⟨false, false, true, true, [true, true], 2, 0, false, 0, [], [], 0, [],
          false, 0, false, false, false⟩ :=
  (reveal_monotonic_saturating _ 3).2.2.2.2 (by decide)

/-- Witness for C7 (amended): with reduced motion, three cells start
revealed, each initial flag is true, and the transition delay is zero. -/
theorem reduced_motion_reveal_and_delays_witness :
    initialVisible true 3 = List.replicate 3 true
    ∧ transitionDelay true = 0
    ∧ getMobilePhotoDisplayDuration true 0 1 = MOBILE_PHOTO_DEFAULT_DURATION_MS :=
  ⟨(reduced_motion_reveal_and_delays 3 0 1).1,
   (reduced_motion_reveal_and_delays 3 0 1).2.2.1,
   (reduced_motion_reveal_and_delays 3 0 1).2.2.2⟩

/-- Witness for C8: with the countdown display absent the flow falls
straight through to the celebration video without arming the timer. -/
theorem missing_target_skips_to_video_witness :
    (startCountdownFlow (initAppState false false false true 2)).videoDirect = 1
    ∧ (startCountdownFlow (initAppState false false false true 2)).intervalActive = false :=
  ⟨by rw [(missing_target_skips_to_video (initAppState false false false true 2) rfl
      (Or.inl rfl)).1]; rfl,
   by rw [(missing_target_skips_to_video (initAppState false false false true 2) rfl
      (Or.inl rfl)).2.1]; rfl⟩

/-- Witness for C9: four rapid start triggers on a fresh two-cell desktop
page equal one, and the timer is armed exactly once. -/
theorem start_experience_idempotent_witness :
    startExperience^[4] (initAppState false false true true 2)
      = startExperience (initAppState false false true true 2)
    ∧ (startExperience^[4] (initAppState false false true true 2)).armCount = 1 :=
  ⟨(start_experience_idempotent (initAppState false false true true 2) 4 (by decide)).1,
   ((start_experience_idempotent (initAppState false false true true 2) 4
      (by decide)).2.2 rfl rfl rfl rfl).1⟩

/-- Witness for C10: a two-cell desktop page starts the countdown at 2 and
ends with both cells revealed exactly once. -/
theorem countdown_start_and_full_reveal_witness :
    countdownStart 2 = 2
    ∧ (stepTimer^[3] (startCountdownFlow (initAppState false false true true 2))).visible
        = List.replicate 2 true
    ∧ (stepTimer^[3] (startCountdownFlow (initAppState false false true true 2))).revealedCells
        = 2 :=
  ⟨(countdown_start_and_full_reveal 2 3 (by decide) (by decide)).1,
   (countdown_start_and_full_reveal 2 3 (by decide) (by decide)).2.2.2.2.1,
   (countdown_start_and_full_reveal 2 3 (by decide) (by decide)).2.2.2.2.2.1⟩

end SaveTheDate
